import Mathlib

/-
Verification of the dsttime time-synchronization module.

The module under study provides US daylight-saving-aware time synchronization
for a MicroPython device.  Its pure core is the calendar arithmetic: the
`is_dst` boundary computation and the `utc_to_local` conversion pipeline.
The effectful parts (`get_ntp_time`, `set_local_time`) are embedded by
passing the environment (network outcomes per attempt) explicitly and
recording the observable side effects (socket lifecycle, notices, RTC
writes) in a trace structure.

Machine integers do not occur: Python integers are unbounded, so `Int` is
the faithful carrier.  Python's `//` and `%` on a positive divisor agree
with Lean's `Int` division and remainder (both floor-style there), which is
what all the formulas below use.
-/

/-- Calendar timestamp: the 8-tuple returned by MicroPython's
`time.localtime` / consumed by `time.mktime`:
(year, month 1-12, mday 1-31, hour, minute, second, weekday 0=Mon..6=Sun,
yearday 1-366). -/
structure TimeTuple where
  year : Int
  month : Int
  day : Int
  hour : Int
  minute : Int
  second : Int
  weekday : Int
  yearday : Int
deriving DecidableEq, Repr

/-- Days-since-epoch to (year, month, day) in the proleptic Gregorian
calendar (standard civil-from-days algorithm); models the date part of the
platform `time.localtime` primitive. -/
def civilFromDays (z0 : Int) : Int × Int × Int :=
  let z := z0 + 719468
  let era := z / 146097
  let doe := z - era * 146097
  let yoe := (doe - doe / 1460 + doe / 36524 - doe / 146096) / 365
  let y := yoe + era * 400
  let doy := doe - (365 * yoe + yoe / 4 - yoe / 100)
  let mp := (5 * doy + 2) / 153
  let d := doy - (153 * mp + 2) / 5 + 1
  let m := if mp < 10 then mp + 3 else mp - 9
  (if m ≤ 2 then y + 1 else y, m, d)

/-- Proleptic Gregorian (year, month, day) to days since the epoch
1970-01-01 (standard days-from-civil algorithm); models the date part of
the platform `time.mktime` primitive. -/
def daysFromCivil (y m d : Int) : Int :=
  let y2 := if m ≤ 2 then y - 1 else y
  let era := y2 / 400
  let yoe := y2 - era * 400
  let mp := if m ≤ 2 then m + 9 else m - 3
  let doy := (153 * mp + 2) / 5 + d - 1
  let doe := yoe * 365 + yoe / 4 - yoe / 100 + doy
  era * 146097 + doe - 719468

/-- Model of MicroPython `time.localtime(t)`: seconds since the epoch to a
calendar tuple, in UTC (MicroPython has no timezone database; `localtime`
and `gmtime` agree).  1970-01-01 was a Thursday, hence weekday
`(days + 3) % 7` in the 0=Monday..6=Sunday convention. -/
def localtime (t : Int) : TimeTuple :=
  let days := t / 86400
  let secs := t % 86400
  let c := civilFromDays days
  { year := c.1, month := c.2.1, day := c.2.2,
    hour := secs / 3600, minute := (secs % 3600) / 60, second := secs % 60,
    weekday := (days + 3) % 7,
    yearday := days - daysFromCivil c.1 1 1 + 1 }

/-- Model of MicroPython `time.mktime(tuple)`: the inverse direction;
weekday and yearday fields of the input are ignored, as on the platform. -/
def mktime (t : TimeTuple) : Int :=
  daysFromCivil t.year t.month t.day * 86400 +
    t.hour * 3600 + t.minute * 60 + t.second

/-- Model of MicroPython `time.gmtime(t)`: identical to `localtime` (UTC). -/
def gmtime (t : Int) : TimeTuple :=
  localtime t

/-- Weekday of a calendar date through the day-count, in the
0=Monday..6=Sunday convention (what `time.localtime(...)[6]` yields). -/
def weekdayOfDate (y m d : Int) : Int :=
  (daysFromCivil y m d + 3) % 7

/-- Independent cross-check: Zeller's congruence, remapped from Zeller's
0=Saturday to the 0=Monday..6=Sunday convention.  Shares no code with
`civilFromDays`/`daysFromCivil`. -/
def zellerWeekday (y m d : Int) : Int :=
  let yz := if m ≤ 2 then y - 1 else y
  let mz := if m ≤ 2 then m + 12 else m
  let h := (d + (13 * (mz + 1)) / 5 + yz + yz / 4 - yz / 100 + yz / 400) % 7
  (h + 5) % 7

/-- `NTP_DELTA` constant of dsttime.py line 21. -/
def NTP_DELTA : Int := 2208988800

/-- `TIMEZONES` dict of dsttime.py lines 25-30, as a lookup function. -/
def TIMEZONES (name : String) : Option Int :=
  if name = "US/Eastern" then some (-5)
  else if name = "US/Central" then some (-6)
  else if name = "US/Mountain" then some (-7)
  else if name = "US/Pacific" then some (-8)
  else none

/-- Lines 44-46 of `is_dst`: weekday of March 1 via `mktime`/`localtime`,
then `14 - w if w <= 6 else 7 - (w - 7)` (the second branch is embedded
verbatim even though a weekday is always ≤ 6). -/
def dst_start_day (year : Int) : Int :=
  let march1 := mktime ⟨year, 3, 1, 0, 0, 0, 0, 0⟩
  let march1_wday := (localtime march1).weekday
  if march1_wday ≤ 6 then 14 - march1_wday else 7 - (march1_wday - 7)

/-- Lines 49-51 of `is_dst`: weekday of November 1 via `mktime`/`localtime`,
then `1 + (7 - w) % 7` (Python `%` on the positive literal 7 agrees with
`Int.emod`). -/
def dst_end_day (year : Int) : Int :=
  let nov1 := mktime ⟨year, 11, 1, 0, 0, 0, 0, 0⟩
  let nov1_wday := (localtime nov1).weekday
  1 + (7 - nov1_wday) % 7

/-- `is_dst` of dsttime.py lines 32-67.  The `if/elif` chain is embedded
directly; the inner `month == 3, day < start` and `month == 11, day > end`
cases fall through to the final `return False`, exactly as in the source. -/
def is_dst (t : TimeTuple) : Bool :=
  let S := dst_start_day t.year
  let E := dst_end_day t.year
  if t.month < 3 ∨ t.month > 11 then false
  else if 3 < t.month ∧ t.month < 11 then true
  else if t.month = 3 then
    (if t.day > S then true
     else if t.day = S then decide (t.hour ≥ 2)
     else false)
  else if t.month = 11 then
    (if t.day < E then true
     else if t.day = E then decide (t.hour < 2)
     else false)
  else false

/-- `utc_to_local` of dsttime.py lines 90-99: fixed offset first, then one
DST probe on the pre-DST local time, then at most one +3600 correction. -/
def utc_to_local (utc_time : TimeTuple) (tz_offset : Int) : TimeTuple :=
  let epoch := mktime utc_time
  let local_epoch := epoch + tz_offset * 3600
  let local_time := localtime local_epoch
  if is_dst local_time then localtime (local_epoch + 3600)
  else local_time

/-- The spec's §4.1 decision table, written from the spec's words (for the
refinement claim about `is_dst`), relative to start day `S` and end day
`E`. -/
def dstTableActive (month day hour S E : Int) : Prop :=
  (3 < month ∧ month < 11) ∨
  (month = 3 ∧ (day > S ∨ (day = S ∧ hour ≥ 2))) ∨
  (month = 11 ∧ (day < E ∨ (day = E ∧ hour < 2)))

/-- Decidable equality for `Except`, needed to evaluate trace equalities on
concrete inputs. -/
instance instDecEqExcept {ε α : Type} [DecidableEq ε] [DecidableEq α] :
    DecidableEq (Except ε α)
  | .ok x, .ok y =>
    if h : x = y then .isTrue (by rw [h])
    else .isFalse (fun hc => h (Except.ok.inj hc))
  | .ok _, .error _ => .isFalse (fun hc => Except.noConfusion hc)
  | .error _, .ok _ => .isFalse (fun hc => Except.noConfusion hc)
  | .error e, .error f =>
    if h : e = f then .isTrue (by rw [h])
    else .isFalse (fun hc => h (Except.error.inj hc))

/-- Errors `get_ntp_time` can raise: the explicit RuntimeError of line 74
(network unavailable), and the uncaught `struct.error` that
`struct.unpack("!I", msg[40:44])` on line 86 raises when the slice holds
fewer than 4 bytes. -/
inductive NtpError where
  | networkUnavailable
  | structError
deriving DecidableEq, Repr

/-- Environment of one `get_ntp_time` call: whether `getaddrinfo`
succeeds, and what the `sendto`/`recv` exchange produces — `Except.error`
for any exception there (timeout or socket error), `Except.ok bytes` for a
received datagram (at most 48 bytes, per `recv(48)`). -/
structure NtpEnv where
  resolveOk : Bool
  sendRecv : Except Unit (List Nat)
deriving DecidableEq, Repr

/-- Observable outcome of one `get_ntp_time` call: socket lifecycle plus
the result — `Except.ok` for a normal return (`none` models Python's
`return None`), `Except.error` for a raised exception. -/
structure NtpTrace where
  socketCreated : Bool
  socketClosed : Bool
  result : Except NtpError (Option TimeTuple)
deriving DecidableEq, Repr

/-- Big-endian unsigned 32-bit decode of `struct.unpack("!I", _)`. -/
def unpackBE32 (bs : List Nat) : Nat :=
  bs.foldl (fun a b => a * 256 + b) 0

/-- The 48-byte request datagram of line 77: `b'\x1b' + 47 * b'\0'`. -/
def NTP_REQUEST : List Nat :=
  27 :: List.replicate 47 0

/-- `get_ntp_time` of dsttime.py lines 69-88.  Control flow mirrored:
`getaddrinfo` failure raises before the socket exists; the `try` block
covers only `sendto`/`recv`, whose exceptions yield `return None`; the
`finally` closes the socket on both of those paths; the `struct.unpack` of
line 86 runs after the `finally`, so a reply shorter than 44 bytes raises
an uncaught `struct.error` with the socket already closed. -/
def get_ntp_time (env : NtpEnv) : NtpTrace :=
  if env.resolveOk = false then
    { socketCreated := false, socketClosed := false,
      result := .error .networkUnavailable }
  else
    match env.sendRecv with
    | .error _ =>
        { socketCreated := true, socketClosed := true, result := .ok none }
    | .ok msg =>
        let field := (msg.drop 40).take 4
        if field.length = 4 then
          { socketCreated := true, socketClosed := true,
            result := .ok (some (gmtime ((unpackBE32 field : Int) - NTP_DELTA))) }
        else
          { socketCreated := true, socketClosed := true,
            result := .error .structError }

/-- What one `get_ntp_time()` call inside the `set_local_time` retry loop
produces, as seen by the loop: a timestamp, Python `None`, or a raised
exception that propagates out of the loop. -/
inductive NtpOutcome where
  | time (t : TimeTuple)
  | notAvailable
  | err (e : NtpError)
deriving DecidableEq, Repr

/-- How the retry loop of lines 110-119 terminates. -/
inductive LoopExit where
  | success (t : TimeTuple) (recovered : Bool)
  | exhausted
  | raised (e : NtpError)
deriving DecidableEq, Repr

/-- Counters of the retry loop: time-source invocations, transient-failure
notices printed (line 114), and its exit. -/
structure LoopOut where
  calls : Nat
  transient : Nat
  exit : LoopExit
deriving DecidableEq, Repr

/-- The `while retries < 10` loop of lines 110-119, recursion on the
remaining fuel `10 - retries`.  `recovered` records whether the
recovery notice of line 118 fires (`retries > 0` at the first success). -/
def retryLoop (oracle : Nat → NtpOutcome) : Nat → Nat → LoopOut
  | _, 0 => ⟨0, 0, .exhausted⟩
  | retries, fuel + 1 =>
    match oracle retries with
    | .time t => ⟨1, 0, .success t (decide (0 < retries))⟩
    | .err e => ⟨1, 0, .raised e⟩
    | .notAvailable =>
        let r := retryLoop oracle (retries + 1) fuel
        ⟨r.calls + 1, r.transient + 1, r.exit⟩

/-- Fatal error kinds of `set_local_time`: the ValueError of line 107, an
exception propagating out of a `get_ntp_time` attempt, and the
RuntimeError of line 122 after exhaustion. -/
inductive SyncError where
  | unsupportedZone (msg : String)
  | propagated (e : NtpError)
  | timeSyncFailed
deriving DecidableEq, Repr

/-- The message of the ValueError raised on line 107, verbatim. -/
def UNSUPPORTED_MSG : String :=
  "Unsupported timezone name (Supported are: US/Eastern, US/Central, US/Mountain, US/Pacific"

/-- The 8-field tuple `machine.RTC().datetime` expects:
(year, month, day, weekday-placeholder, hours, minutes, seconds,
subseconds-placeholder). -/
structure RtcTuple where
  year : Int
  month : Int
  day : Int
  weekday : Int
  hours : Int
  minutes : Int
  seconds : Int
  subseconds : Int
deriving DecidableEq, Repr

/-- Observable outcome of one `set_local_time` call: invocation and notice
counters, every tuple written to `machine.RTC().datetime` (line 128), and
the returned timestamp or raised error. -/
structure SyncTrace where
  ntpCalls : Nat
  transientNotices : Nat
  recoveryNotices : Nat
  rtcWrites : List RtcTuple
  result : Except SyncError TimeTuple
deriving DecidableEq, Repr

/-- `set_local_time` of dsttime.py lines 101-129, parameterised by the
per-attempt behaviour of `get_ntp_time`.  On success the RTC is written
once with `local_time[:3] + (0,) + local_time[3:6] + (0,)` (line 127) and
the local time is returned; every error path raises without writing. -/
def set_local_time (oracle : Nat → NtpOutcome) (tz_name : String) : SyncTrace :=
  match TIMEZONES tz_name with
  | none =>
      ⟨0, 0, 0, [], .error (.unsupportedZone UNSUPPORTED_MSG)⟩
  | some tz_offset =>
      let out := retryLoop oracle 0 10
      match out.exit with
      | .raised e =>
          ⟨out.calls, out.transient, 0, [], .error (.propagated e)⟩
      | .exhausted =>
          ⟨out.calls, out.transient, 0, [], .error .timeSyncFailed⟩
      | .success utc_time recovered =>
          let local_time := utc_to_local utc_time tz_offset
          ⟨out.calls, out.transient, if recovered then 1 else 0,
            [⟨local_time.year, local_time.month, local_time.day, 0,
              local_time.hour, local_time.minute, local_time.second, 0⟩],
            .ok local_time⟩

/-- For a fixed year and month, the day-count is affine in the day of
month: only the `+ d - 1` term of `daysFromCivil` mentions `d`. -/
theorem daysFromCivil_day_shift (y m d : Int) :
    daysFromCivil y m d = daysFromCivil y m 1 + (d - 1) := by
  simp only [daysFromCivil]
  ring

/-- The weekday the platform primitive reports for the first of a month is
the day-count weekday. -/
theorem weekday_first_of_month (y m : Int) :
    (localtime (mktime ⟨y, m, 1, 0, 0, 0, 0, 0⟩)).weekday =
      (daysFromCivil y m 1 + 3) % 7 := by
  simp only [mktime, localtime]
  omega

/-- The weekday of any date, re-expressed through the first of its month. -/
theorem weekdayOfDate_shift (y m d : Int) :
    weekdayOfDate y m d = (daysFromCivil y m 1 + d + 2) % 7 := by
  simp only [weekdayOfDate]
  rw [daysFromCivil_day_shift y m d]
  omega

/-- Closed form of the DST start day: the `w ≤ 6` branch is always taken. -/
theorem dst_start_day_eq (Y : Int) :
    dst_start_day Y = 14 - (daysFromCivil Y 3 1 + 3) % 7 := by
  simp only [dst_start_day]
  rw [weekday_first_of_month]
  rw [if_pos (by omega)]

/-- Closed form of the DST end day. -/
theorem dst_end_day_eq (Y : Int) :
    dst_end_day Y = 1 + (7 - (daysFromCivil Y 11 1 + 3) % 7) % 7 := by
  simp only [dst_end_day]
  rw [weekday_first_of_month]

/-- C1: the claim asserts both boundary days computed inside `is_dst` fall
on a Sunday (weekday 6 in the 0=Monday..6=Sunday convention).  The March
start day always does; the November end day always falls on a Monday
(weekday 0), never a Sunday.  Concretely for 2024 the code computes
`dst_end_day 2024 = 4`, yet 2024-11-04 is a Monday (the actual first
Sunday is 2024-11-03), cross-checked with Zeller's congruence. -/
theorem C1_boundary_days_weekday :
    (∀ Y : Int, weekdayOfDate Y 3 (dst_start_day Y) = 6) ∧
    (∀ Y : Int, weekdayOfDate Y 11 (dst_end_day Y) = 0) ∧
    dst_start_day 2024 = 10 ∧ zellerWeekday 2024 3 10 = 6 ∧
    dst_end_day 2024 = 4 ∧ zellerWeekday 2024 11 4 = 0 ∧
    zellerWeekday 2024 11 3 = 6 := by
  refine ⟨?_, ?_, by decide, by decide, by decide, by decide, by decide⟩
  · intro Y
    rw [weekdayOfDate_shift, dst_start_day_eq]
    omega
  · intro Y
    rw [weekdayOfDate_shift, dst_end_day_eq]
    omega

/-- C2: `is_dst` realises the spec's decision table relative to the
computed start day S (March) and end day E (November): false outside
[3,11], true strictly inside, boundary months by day and the 2 o'clock
hour rule. -/
theorem C2_decision_table (t : TimeTuple) :
    is_dst t = true ↔
      dstTableActive t.month t.day t.hour
        (dst_start_day t.year) (dst_end_day t.year) := by
  simp only [is_dst, dstTableActive]
  split_ifs <;> (simp_all; try omega)

/-- C3: `utc_to_local` equals epoch-to-calendar of
calendar-to-epoch(u) + offset·3600 + d, with d = 3600 exactly when
`is_dst` holds on the pre-DST probe and d = 0 otherwise; the DST test is
taken once, on the pre-DST local timestamp. -/
theorem C3_conversion_pipeline (u : TimeTuple) (off : Int) :
    utc_to_local u off =
      localtime (mktime u + off * 3600 +
        (if is_dst (localtime (mktime u + off * 3600)) then 3600 else 0)) := by
  simp only [utc_to_local]
  split_ifs with h
  · rfl
  · simp

/-- C4: UTC 2024-03-10 08:00:00 with the US/Eastern offset −5 yields local
2024-03-10 04:00:00; the DST branch is taken, and the second Sunday of
March 2024 computed by the code is March 10. -/
theorem C4_eastern_example :
    utc_to_local ⟨2024, 3, 10, 8, 0, 0, 6, 70⟩ (-5) =
      ⟨2024, 3, 10, 4, 0, 0, 6, 70⟩ ∧
    dst_start_day 2024 = 10 ∧
    is_dst (localtime (mktime ⟨2024, 3, 10, 8, 0, 0, 6, 70⟩ + (-5) * 3600)) =
      true := by
  decide

/-- C10: `is_dst` reads only the year, month, day and hour fields of its
input tuple; any two tuples agreeing on those four agree on the result. -/
theorem C10_field_independence (t u : TimeTuple) (hy : t.year = u.year)
    (hm : t.month = u.month) (hd : t.day = u.day) (hh : t.hour = u.hour) :
    is_dst t = is_dst u := by
  simp only [is_dst]
  rw [hy, hm, hd, hh]

/-- C10 witness: two tuples sharing (2024, 7, 4, 12) but differing in
minute, second, weekday and yearday get the same `is_dst` verdict. -/
theorem C10_field_independence_witness :
    is_dst ⟨2024, 7, 4, 12, 0, 0, 0, 0⟩ =
      is_dst ⟨2024, 7, 4, 12, 59, 59, 3, 186⟩ :=
  C10_field_independence _ _ rfl rfl rfl rfl

/-- The 4-byte slice `msg[40:44]` is full exactly when the reply has at
least 44 bytes. -/
theorem slice_full_iff (msg : List Nat) :
    ((msg.drop 40).take 4).length = 4 ↔ 44 ≤ msg.length := by
  simp only [List.length_take, List.length_drop]
  omega

/-- C6 counterexample: with address resolution succeeding and a 43-byte
reply received, `get_ntp_time` raises the uncaught parsing error instead
of returning the NotAvailable value (None), refuting the claim that every
post-request failure returns None. -/
theorem C6_short_reply_counterexample :
    (get_ntp_time ⟨true, Except.ok (List.replicate 43 0)⟩).result =
      Except.error NtpError.structError ∧
    (get_ntp_time ⟨true, Except.ok (List.replicate 43 0)⟩).result ≠
      Except.ok none := by
  decide

/-- C6 (amended): address-resolution failure raises NetworkUnavailable;
a timeout or socket error during the send/receive exchange returns the
NotAvailable value (None); a reply of at least 44 bytes yields the decoded
timestamp; but a short reply (fewer than 44 bytes) raises an uncaught
parsing exception rather than returning None. -/
theorem C6_failure_semantics (env : NtpEnv) :
    (env.resolveOk = false →
      (get_ntp_time env).result = Except.error NtpError.networkUnavailable) ∧
    (∀ e : Unit, env.resolveOk = true → env.sendRecv = Except.error e →
      (get_ntp_time env).result = Except.ok none) ∧
    (∀ msg : List Nat, env.resolveOk = true → env.sendRecv = Except.ok msg →
      msg.length < 44 →
      (get_ntp_time env).result = Except.error NtpError.structError) ∧
    (∀ msg : List Nat, env.resolveOk = true → env.sendRecv = Except.ok msg →
      44 ≤ msg.length →
      (get_ntp_time env).result =
        Except.ok (some (gmtime
          ((unpackBE32 ((msg.drop 40).take 4) : Int) - NTP_DELTA)))) := by
  refine ⟨?_, ?_, ?_, ?_⟩
  · intro hr
    simp [get_ntp_time, hr]
  · intro e hr hs
    simp [get_ntp_time, hr, hs]
  · intro msg hr hs hlen
    simp only [get_ntp_time, hr, hs]
    rw [if_neg (by simp)]
    rw [if_neg (fun hc => absurd ((slice_full_iff msg).mp hc) (by omega))]
  · intro msg hr hs hlen
    simp only [get_ntp_time, hr, hs]
    rw [if_neg (by simp)]
    rw [if_pos ((slice_full_iff msg).mpr hlen)]

/-- C6 witness: a concrete 48-byte all-zero reply decodes and returns a
timestamp; instantiates the amended theorem's last clause. -/
theorem C6_failure_semantics_witness :
    (get_ntp_time ⟨true, Except.ok (List.replicate 48 0)⟩).result =
      Except.ok (some (gmtime
        ((unpackBE32 (((List.replicate 48 0).drop 40).take 4) : Int) -
          NTP_DELTA))) :=
  (C6_failure_semantics ⟨true, Except.ok (List.replicate 48 0)⟩).2.2.2
    (List.replicate 48 0) rfl rfl (by decide)

/-- C9: on every execution path of `get_ntp_time` that creates the socket
— successful reply, send/receive exception, or the parsing exception on a
short reply — the socket is closed before the function returns or the
exception propagates. -/
theorem C9_socket_scoped (env : NtpEnv)
    (h : (get_ntp_time env).socketCreated = true) :
    (get_ntp_time env).socketClosed = true := by
  rcases env with ⟨resolveOk, sendRecv⟩
  cases resolveOk
  · simp [get_ntp_time] at h
  · cases sendRecv with
    | error e => rfl
    | ok msg =>
      simp only [get_ntp_time]
      split
      · simp_all
      · split <;> rfl

/-- C9 witness: the socket-error path at a concrete environment. -/
theorem C9_socket_scoped_witness :
    (get_ntp_time ⟨true, Except.error ()⟩).socketClosed = true :=
  C9_socket_scoped ⟨true, Except.error ()⟩ (by decide)

/-- Loop step: first success at the current retry count. -/
theorem retryLoop_time (oracle : Nat → NtpOutcome) (r fuel : Nat)
    (t : TimeTuple) (h : oracle r = .time t) :
    retryLoop oracle r (fuel + 1) = ⟨1, 0, .success t (decide (0 < r))⟩ := by
  unfold retryLoop
  rw [h]

/-- Loop step: a NotAvailable attempt adds one call and one transient
notice and continues with the retry count bumped. -/
theorem retryLoop_notAvail (oracle : Nat → NtpOutcome) (r fuel : Nat)
    (h : oracle r = .notAvailable) :
    retryLoop oracle r (fuel + 1) =
      ⟨(retryLoop oracle (r + 1) fuel).calls + 1,
       (retryLoop oracle (r + 1) fuel).transient + 1,
       (retryLoop oracle (r + 1) fuel).exit⟩ := by
  conv_lhs => rw [retryLoop]
  rw [h]

/-- Running the loop against an oracle whose attempts `r..r+k-1` fail and
whose attempt `r+k` succeeds: exactly `k+1` calls, `k` transient notices,
success carrying the recovery flag `0 < r+k`. -/
theorem retryLoop_first_success (oracle : Nat → NtpOutcome) :
    ∀ (k fuel r : Nat) (t : TimeTuple), k < fuel →
      (∀ i : Nat, i < k → oracle (r + i) = .notAvailable) →
      oracle (r + k) = .time t →
      retryLoop oracle r fuel =
        ⟨k + 1, k, .success t (decide (0 < r + k))⟩ := by
  intro k
  induction k with
  | zero =>
    intro fuel r t hf hfail hok
    obtain ⟨f, rfl⟩ : ∃ f, fuel = f + 1 := ⟨fuel - 1, by omega⟩
    rw [retryLoop_time oracle r f t (by simpa using hok)]
    simp
  | succ j ih =>
    intro fuel r t hf hfail hok
    obtain ⟨f, rfl⟩ : ∃ f, fuel = f + 1 := ⟨fuel - 1, by omega⟩
    rw [retryLoop_notAvail oracle r f (by simpa using hfail 0 (by omega))]
    rw [ih f (r + 1) t (by omega)
      (fun i hi => by
        rw [show r + 1 + i = r + (i + 1) from by omega]
        exact hfail (i + 1) (by omega))
      (by
        rw [show r + 1 + j = r + (j + 1) from by omega]
        exact hok)]
    rw [show r + 1 + j = r + (j + 1) from by omega]

/-- Running the loop against an always-NotAvailable oracle consumes all the
fuel: one call and one transient notice per unit of fuel, then exhaustion. -/
theorem retryLoop_all_fail (oracle : Nat → NtpOutcome)
    (h : ∀ i, oracle i = .notAvailable) :
    ∀ (fuel r : Nat), retryLoop oracle r fuel = ⟨fuel, fuel, .exhausted⟩ := by
  intro fuel
  induction fuel with
  | zero => intro r; rfl
  | succ f ih =>
    intro r
    rw [retryLoop_notAvail oracle r f (h r), ih (r + 1)]

/-- C5: with a valid zone, a time source failing on the first N attempts
(N < 10) and succeeding on attempt N+1 is invoked exactly N+1 times, the
recovery notice fires exactly once unless N = 0, and the successful result
is used; an always-failing source is invoked exactly 10 times and the call
fails with TimeSyncFailed. -/
theorem C5_retry_policy :
    (∀ (oracle : Nat → NtpOutcome) (tz_name : String) (off : Int)
        (N : Nat) (t : TimeTuple),
      TIMEZONES tz_name = some off → N < 10 →
      (∀ i, i < N → oracle i = .notAvailable) →
      oracle N = .time t →
      (set_local_time oracle tz_name).ntpCalls = N + 1 ∧
      (set_local_time oracle tz_name).recoveryNotices =
        (if N = 0 then 0 else 1) ∧
      (set_local_time oracle tz_name).result =
        Except.ok (utc_to_local t off)) ∧
    (∀ (oracle : Nat → NtpOutcome) (tz_name : String) (off : Int),
      TIMEZONES tz_name = some off →
      (∀ i, oracle i = .notAvailable) →
      (set_local_time oracle tz_name).ntpCalls = 10 ∧
      (set_local_time oracle tz_name).result =
        Except.error SyncError.timeSyncFailed) := by
  constructor
  · intro oracle tz_name off N t hz hN hfail hok
    have hloop := retryLoop_first_success oracle N 10 0 t hN
      (fun i hi => by simpa using hfail i hi) (by simpa using hok)
    simp only [set_local_time, hz, hloop]
    refine ⟨trivial, ?_, trivial⟩
    rcases N with _ | n <;> simp
  · intro oracle tz_name off hz hfail
    have hloop := retryLoop_all_fail oracle hfail 10 0
    simp only [set_local_time, hz, hloop]
    exact ⟨trivial, trivial⟩

/-- C5 witness: a source failing twice then succeeding with the example
timestamp, through US/Eastern. -/
theorem C5_retry_policy_witness :
    (set_local_time
        (fun i => if i < 2 then NtpOutcome.notAvailable
          else NtpOutcome.time ⟨2024, 3, 10, 8, 0, 0, 6, 70⟩)
        "US/Eastern").ntpCalls = 2 + 1 ∧
    (set_local_time
        (fun i => if i < 2 then NtpOutcome.notAvailable
          else NtpOutcome.time ⟨2024, 3, 10, 8, 0, 0, 6, 70⟩)
        "US/Eastern").recoveryNotices = (if 2 = 0 then 0 else 1) ∧
    (set_local_time
        (fun i => if i < 2 then NtpOutcome.notAvailable
          else NtpOutcome.time ⟨2024, 3, 10, 8, 0, 0, 6, 70⟩)
        "US/Eastern").result =
      Except.ok (utc_to_local ⟨2024, 3, 10, 8, 0, 0, 6, 70⟩ (-5)) :=
  C5_retry_policy.1 _ "US/Eastern" (-5) 2 ⟨2024, 3, 10, 8, 0, 0, 6, 70⟩
    (by decide) (by decide) (by decide) (by decide)

/-- C7: any zone name other than the four supported identifiers makes
`set_local_time` fail with the UnsupportedZone error — whose message lists
all four valid names — before any network activity: the time source is
invoked zero times. -/
theorem C7_unsupported_zone (oracle : Nat → NtpOutcome) (tz_name : String)
    (h1 : tz_name ≠ "US/Eastern") (h2 : tz_name ≠ "US/Central")
    (h3 : tz_name ≠ "US/Mountain") (h4 : tz_name ≠ "US/Pacific") :
    (set_local_time oracle tz_name).result =
      Except.error (SyncError.unsupportedZone UNSUPPORTED_MSG) ∧
    (set_local_time oracle tz_name).ntpCalls = 0 ∧
    (∃ a b : String, UNSUPPORTED_MSG = a ++ "US/Eastern" ++ b) ∧
    (∃ a b : String, UNSUPPORTED_MSG = a ++ "US/Central" ++ b) ∧
    (∃ a b : String, UNSUPPORTED_MSG = a ++ "US/Mountain" ++ b) ∧
    (∃ a b : String, UNSUPPORTED_MSG = a ++ "US/Pacific" ++ b) := by
  have hz : TIMEZONES tz_name = none := by
    simp only [TIMEZONES, if_neg h1, if_neg h2, if_neg h3, if_neg h4]
  simp only [set_local_time, hz]
  refine ⟨trivial, trivial,
    ⟨"Unsupported timezone name (Supported are: ",
     ", US/Central, US/Mountain, US/Pacific", by decide⟩,
    ⟨"Unsupported timezone name (Supported are: US/Eastern, ",
     ", US/Mountain, US/Pacific", by decide⟩,
    ⟨"Unsupported timezone name (Supported are: US/Eastern, US/Central, ",
     ", US/Pacific", by decide⟩,
    ⟨"Unsupported timezone name (Supported are: US/Eastern, US/Central, US/Mountain, ",
     "", by decide⟩⟩

/-- C7 witness: an unlisted zone name, with an always-available time
source that is nevertheless never invoked. -/
theorem C7_unsupported_zone_witness :
    (set_local_time (fun _ => NtpOutcome.notAvailable)
      "Mars/Olympus").result =
        Except.error (SyncError.unsupportedZone UNSUPPORTED_MSG) ∧
    (set_local_time (fun _ => NtpOutcome.notAvailable)
      "Mars/Olympus").ntpCalls = 0 :=
  ⟨(C7_unsupported_zone _ _ (by decide) (by decide) (by decide)
      (by decide)).1,
   (C7_unsupported_zone _ _ (by decide) (by decide) (by decide)
      (by decide)).2.1⟩

/-- C8: on a successful call the device clock is written exactly once,
with the 8-field tuple (year, month, day, 0, hour, minute, second, 0) of
the returned local timestamp; on every failing outcome the clock is never
written. -/
theorem C8_rtc_write_discipline (oracle : Nat → NtpOutcome)
    (tz_name : String) :
    (∀ t : TimeTuple, (set_local_time oracle tz_name).result = Except.ok t →
      (set_local_time oracle tz_name).rtcWrites =
        [⟨t.year, t.month, t.day, 0, t.hour, t.minute, t.second, 0⟩]) ∧
    (∀ e : SyncError,
      (set_local_time oracle tz_name).result = Except.error e →
      (set_local_time oracle tz_name).rtcWrites = []) := by
  rcases hz : TIMEZONES tz_name with _ | off
  · simp only [set_local_time, hz]
    exact ⟨fun t ht => Except.noConfusion ht, fun e he => trivial⟩
  · rcases hx : (retryLoop oracle 0 10).exit with ⟨u, rec⟩ | _ | e
    · simp only [set_local_time, hz, hx]
      refine ⟨fun t ht => ?_, fun e he => Except.noConfusion he⟩
      obtain rfl : utc_to_local u off = t := Except.ok.inj ht
      rfl
    · simp only [set_local_time, hz, hx]
      exact ⟨fun t ht => Except.noConfusion ht, fun e he => trivial⟩
    · simp only [set_local_time, hz, hx]
      exact ⟨fun t ht => Except.noConfusion ht, fun e he => trivial⟩

/-- C8 witness: an immediately-successful source through US/Eastern writes
the clock once with the converted tuple. -/
theorem C8_rtc_write_discipline_witness :
    (set_local_time (fun _ => NtpOutcome.time ⟨2024, 3, 10, 8, 0, 0, 6, 70⟩)
      "US/Eastern").rtcWrites = [⟨2024, 3, 10, 0, 4, 0, 0, 0⟩] :=
  (C8_rtc_write_discipline _ _).1 ⟨2024, 3, 10, 4, 0, 0, 6, 70⟩ (by decide)
